import Mathlib

/-!
Shallow embedding of the HomeBlocks volume-management layer
(`src/lib/volume/volume.cpp`, `volume.hpp`, `homeblks_impl.hpp` and the
HomeBlocksImpl implementation file), together with theorems settling the
frozen claims about it.

Machine integers are modelled as `Nat` with explicit `% 2^w` where the code
relies on wraparound; UUIDs are modelled as `Nat`; fixed byte buffers as
`List Nat`.  External services (the homestore replication service, index
service and metadata service) are modelled by explicit oracles / world
state, since they are outside this repository.
-/

namespace Homeblocks

/-! ## Basic data model -/

/-- VolumeInfo value type: identity, provisioned size, page size, display
name (byte string). -/
structure VolumeInfo where
  id : Nat
  size_bytes : Nat
  page_size : Nat
  name : List Nat
deriving Repr, DecidableEq

/-! ## Volume superblock codec (`Volume::vol_sb_t`, volume.hpp) -/

def VOL_SB_MAGIC : Nat := 0xc01fadeb

def VOL_SB_VER : Nat := 0x3

def VOL_NAME_SIZE : Nat := 100

/-- C `strncpy(dest, src, n)` into an `n`-byte region: copies bytes of
`src` up to the first NUL or `n` bytes, NUL-padding the remainder of the
region.  Always produces exactly `n` bytes. -/
def cstrncpy : List Nat → Nat → List Nat
  | _, 0 => []
  | [], n + 1 => List.replicate (n + 1) 0
  | b :: rest, n + 1 => if b = 0 then List.replicate (n + 1) 0 else b :: cstrncpy rest n

/-- Reading a NUL-terminated C string out of a byte buffer (what the
`VolumeInfo` constructor does with the fixed `name` array). -/
def cstring : List Nat → List Nat
  | [] => []
  | b :: rest => if b = 0 then [] else b :: cstring rest

/-- On-disk per-volume superblock record `vol_sb_t`
`{magic, version, num_streams, page_size, size, id, name[100]}`. -/
structure vol_sb_t where
  magic : Nat
  version : Nat
  num_streams : Nat
  page_size : Nat
  size : Nat
  id : Nat
  name : List Nat
deriving Repr, DecidableEq

/-- `vol_sb_t::init`: populate the record from a `VolumeInfo`; the name is
copied with `strncpy(name, src, VOL_NAME_SIZE - 1)` and
`name[VOL_NAME_SIZE - 1] = 0`. -/
def vol_sb_t.init (page_sz sz_bytes vid : Nat) (name_str : List Nat) : vol_sb_t :=
  { magic := VOL_SB_MAGIC
    version := VOL_SB_VER
    num_streams := 0
    page_size := page_sz
    size := sz_bytes
    id := vid
    name := cstrncpy name_str (VOL_NAME_SIZE - 1) ++ [0] }

/-! ## Volume object (volume.hpp / volume.cpp) -/

/-- Volume lifecycle state.  The `state_` member and its persistence are
not part of the old `vol_sb_t` layout in the header; modelled from the
spec: lifecycle state is `{ONLINE, DESTROYING}` and `state_change`
persists it with the superblock record. -/
inductive VolState
  | INIT
  | ONLINE
  | DESTROYING
deriving Repr, DecidableEq

/-- The Volume object.  `uuid` is the `uuid_` member; `rd` the repl-dev
handle; `indx_tbl` the index-table handle; `sb` the in-memory superblock
buffer of the `superblk` handler (`none` until created or loaded). -/
structure Volume where
  vol_info : VolumeInfo
  uuid : Nat
  rd : Option Unit
  indx_tbl : Option Unit
  sb : Option vol_sb_t
  state : VolState
deriving Repr, DecidableEq

/-- `Volume::id()` returns the `uuid_` member. -/
def Volume.id (v : Volume) : Nat := v.uuid

/-- Constructor `Volume(VolumeInfo&&)`: stores the info and binds the
superblk handler; no other member is assigned.  `junk` is the
indeterminate initial content of the never-assigned `uuid_` member. -/
def Volume.ctor_from_info (junk : Nat) (info : VolumeInfo) : Volume :=
  { vol_info := info
    uuid := junk
    rd := none
    indx_tbl := none
    sb := none
    state := VolState.INIT }

/-- Constructor `Volume(byte_view, cookie)`: `sb_.load(buf)` then
`vol_info_` is rebuilt from the loaded record (the fixed `name` array is
read as a C string).  No magic/version verification is performed.  `junk`
is again the indeterminate `uuid_` content. -/
def Volume.ctor_from_buf (junk : Nat) (buf : vol_sb_t) : Volume :=
  { vol_info :=
      { id := buf.id
        size_bytes := buf.size
        page_size := buf.page_size
        name := cstring buf.name }
    uuid := junk
    rd := none
    indx_tbl := none
    sb := some buf
    state := VolState.INIT }

/-! ## External world and replication-service oracle -/

/-- Persisted/external state relevant to one volume: whether its repl dev
exists in the replication service, whether its index table exists in the
index service, the committed superblock record in the meta service, and
the last persisted lifecycle state (modelled from the spec, see
`state_change`). -/
structure World where
  dev_exists : Bool
  index_exists : Bool
  sb_record : Option vol_sb_t
  sb_state : VolState
deriving Repr, DecidableEq

/-- Oracle for the replication service around one `init` call:
whether `create_repl_dev` and `get_repl_dev` succeed. -/
structure ReplEnv where
  create_ok : Bool
  get_ok : Bool
deriving Repr, DecidableEq

/-- Observable calls made by the volume code into the external services. -/
inductive Ev
  | sbCreate
  | createReplDev (id : Nat)
  | getReplDev (id : Nat)
  | removeReplDev (id : Nat)
  | createIndexTable
  | removeIndexTable
  | persistState (s : VolState)
  | sbErase
deriving Repr, DecidableEq

/-- Modelled from the spec: `state_change` (body not under `src/`)
transitions the lifecycle state and immediately persists it together with
the in-memory superblock record (durability before side effects). -/
def state_change (w : World) (v : Volume) (s : VolState) : World × Volume :=
  ({ w with sb_record := v.sb, sb_state := s }, { v with state := s })

/-! ## `Volume::init` (volume.cpp lines 52-95) -/

/-- `Volume::init(is_recovery)`.  Creation branch (`!is_recovery`):
create+populate the in-memory superblock, `create_repl_dev(id(), {})` —
on error return `false` with nothing persisted; on success store the
handle, create a fresh index table and register it, then
`state_change(ONLINE)`.  Recovery branch: `get_repl_dev(id())`; a lookup
failure is tolerated (`rd_ = nullptr`) and `true` is returned either way.
Returns (result, world, volume, trace of external calls). -/
def Volume.init (env : ReplEnv) (w : World) (v : Volume) (is_recovery : Bool) :
    Bool × World × Volume × List Ev :=
  if is_recovery = false then
    let sb := vol_sb_t.init v.vol_info.page_size v.vol_info.size_bytes v.vol_info.id
      v.vol_info.name
    let v1 : Volume := { v with sb := some sb }
    if env.create_ok = true then
      let w1 : World := { w with dev_exists := true }
      let v2 : Volume := { v1 with rd := some () }
      let w2 : World := { w1 with index_exists := true }
      let v3 : Volume := { v2 with indx_tbl := some () }
      let p := state_change w2 v3 VolState.ONLINE
      (true, p.1, p.2,
        [Ev.sbCreate, Ev.createReplDev v1.uuid, Ev.createIndexTable,
          Ev.persistState VolState.ONLINE])
    else
      (false, w, v1, [Ev.sbCreate, Ev.createReplDev v1.uuid])
  else
    if env.get_ok = true then
      (true, w, { v with rd := some () }, [Ev.getReplDev v.uuid])
    else
      (true, w, { v with rd := none }, [Ev.getReplDev v.uuid])

/-- `Volume::make_volume(byte_view, cookie)`: constructs from the buffer
then calls `vol->init()` (default argument `is_recovery = false`). -/
def make_volume_from_buf (env : ReplEnv) (w : World) (junk : Nat) (buf : vol_sb_t) :
    Option Volume × World × List Ev :=
  let v := Volume.ctor_from_buf junk buf
  match Volume.init env w v false with
  | (ok, w2, v2, tr) => (if ok then some v2 else none, w2, tr)

/-- `Volume::make_volume(VolumeInfo&&)`: constructs from the info then
calls `vol->init(true /*is_recovery*/)`. -/
def make_volume_from_info (env : ReplEnv) (w : World) (junk : Nat) (info : VolumeInfo) :
    Option Volume × World × List Ev :=
  let v := Volume.ctor_from_info junk info
  match Volume.init env w v true with
  | (ok, w2, v2, tr) => (if ok then some v2 else none, w2, tr)

/-- Modelled from the spec: `create_volume` (body not under `src/`)
drives the creation path of `Volume::init` and inserts the volume into
the Registry only after the whole initialization succeeds; on failure the
Registry is untouched and the error is returned synchronously. -/
def create_volume_model (env : ReplEnv) (w : World) (reg : List Nat) (junk : Nat)
    (info : VolumeInfo) : Bool × World × List Nat :=
  let v := Volume.ctor_from_info junk info
  match Volume.init env w v false with
  | (ok, w2, v2, _) => (ok, w2, if ok then v2.vol_info.id :: reg else reg)

/-! ## `Volume::destroy` (volume.cpp lines 97-127) -/

/-- `Volume::destroy()`: `state_change(DESTROYING)` first (persisted);
then, if a repl-dev handle exists, `remove_repl_dev(id())` and clear the
handle; then, if an index-table handle exists, remove and destroy it and
clear the handle; finally `sb_.destroy()` erases the superblock record
from the meta service. -/
def Volume.destroy (w : World) (v : Volume) : World × Volume × List Ev :=
  let p0 := state_change w v VolState.DESTROYING
  let q1 : World × Volume × List Ev :=
    match p0.2.rd with
    | some _ => ({ p0.1 with dev_exists := false }, { p0.2 with rd := none },
        [Ev.removeReplDev p0.2.uuid])
    | none => (p0.1, p0.2, [])
  let q2 : World × Volume × List Ev :=
    match q1.2.1.indx_tbl with
    | some _ => ({ q1.1 with index_exists := false }, { q1.2.1 with indx_tbl := none },
        [Ev.removeIndexTable])
    | none => (q1.1, q1.2.1, [])
  ({ q2.1 with sb_record := none }, q2.2.1,
    Ev.persistState VolState.DESTROYING :: (q1.2.2 ++ q2.2.2 ++ [Ev.sbErase]))

/-! ## Step-indexed view of `Volume::destroy`, for crash/recovery analysis -/

/-- The individual durable steps of `Volume::destroy`, in program order. -/
inductive DStep
  | persistDestroying
  | removeDev
  | removeIdx
  | eraseSb
deriving Repr, DecidableEq

/-- Effect of one destroy step on world and volume (identical to the
corresponding statements of `Volume::destroy`). -/
def applyDStep (p : World × Volume) (s : DStep) : World × Volume :=
  match s with
  | DStep.persistDestroying => state_change p.1 p.2 VolState.DESTROYING
  | DStep.removeDev => ({ p.1 with dev_exists := false }, { p.2 with rd := none })
  | DStep.removeIdx => ({ p.1 with index_exists := false }, { p.2 with indx_tbl := none })
  | DStep.eraseSb => ({ p.1 with sb_record := none }, p.2)

/-- The step list `Volume::destroy` executes for a given volume: the two
teardown steps are guarded on the respective handle being present. -/
def destroy_step_list (v : Volume) : List DStep :=
  DStep.persistDestroying ::
    ((if v.rd.isSome then [DStep.removeDev] else []) ++
      (if v.indx_tbl.isSome then [DStep.removeIdx] else []) ++ [DStep.eraseSb])

/-- Run a prefix of the destroy steps (crash = stopping after `k` steps). -/
def run_steps (p : World × Volume) (l : List DStep) : World × Volume :=
  l.foldl applyDStep p

/-- Crash-restart reconstruction of a volume from the persisted world,
as the frozen code performs it: if the superblock record was erased the
volume is gone; otherwise the per-volume metadata recovery hands the
persisted buffer to `Volume::make_volume(buf, cookie)` — the only path
in the source from a persisted buffer to a `Volume` (`init` is private).
Because of the inverted dispatch, that runs the creation branch of
`init`, not the recovery branch; and the in-src index-service recovery
callback `HBIndexSvcCB::on_index_table_found` returns `nullptr`
(`recover_index_table` is commented out as TODO), so recovery never
re-attaches an index handle by itself. -/
def recover_from_meta (env : ReplEnv) (w : World) (junk : Nat) :
    Option Volume × World × List Ev :=
  match w.sb_record with
  | none => (none, w, [])
  | some sb => make_volume_from_buf env w junk sb

/-! ## Service superblock (`homeblks_sb_t`, homeblks_impl.hpp) and its
recovery handler (`HomeBlocksImpl::on_hb_meta_blk_found`) -/

def HB_SB_MAGIC : Nat := 0xCEEDDEEB

def HB_SB_VER : Nat := 0x1

def SB_FLAGS_GRACEFUL_SHUTDOWN : Nat := 0x00000001

def SB_FLAGS_RESTRICTED : Nat := 0x00000002

def U32_MASK : Nat := 0xFFFFFFFF

/-- Service superblock record
`{magic:u64, version:u32, flag:u32, boot_cnt:u64}` plus the service
identity `svc_id` used by `superblk_init` / `on_hb_meta_blk_found`. -/
structure homeblks_sb_t where
  magic : Nat
  version : Nat
  flag : Nat
  boot_cnt : Nat
  svc_id : Nat
deriving Repr, DecidableEq

/-- `set_flag(bit)`: `flag |= bit`. -/
def homeblks_sb_t.set_flag (sb : homeblks_sb_t) (bit : Nat) : homeblks_sb_t :=
  { sb with flag := sb.flag ||| bit }

/-- `clear_flag(bit)`: `flag &= ~bit` on a `uint32_t`. -/
def homeblks_sb_t.clear_flag (sb : homeblks_sb_t) (bit : Nat) : homeblks_sb_t :=
  { sb with flag := sb.flag &&& (U32_MASK ^^^ bit) }

/-- `test_flag(bit)`: `flag & bit` as a boolean. -/
def homeblks_sb_t.test_flag (sb : homeblks_sb_t) (bit : Nat) : Bool :=
  decide (sb.flag &&& bit ≠ 0)

/-- `HomeBlocksImpl::superblk_init` (first boot). -/
def superblk_init (svc : Nat) : homeblks_sb_t :=
  { magic := HB_SB_MAGIC, version := HB_SB_VER, flag := 0, boot_cnt := 0, svc_id := svc }

/-- `HomeBlocksImpl::on_hb_meta_blk_found`: load the buffer, then
`RELEASE_ASSERT_EQ` on version and magic (a mismatch is a fatal abort,
modelled as `none`); clear the graceful-shutdown bit if set; increment
`boot_cnt` (`uint64_t`); copy `svc_id` into `our_uuid_`.  Returns the
updated record and the controller identity. -/
def on_hb_meta_blk_found (sb : homeblks_sb_t) : Option (homeblks_sb_t × Nat) :=
  if sb.version = HB_SB_VER ∧ sb.magic = HB_SB_MAGIC then
    let sb1 := if sb.test_flag SB_FLAGS_GRACEFUL_SHUTDOWN then
      sb.clear_flag SB_FLAGS_GRACEFUL_SHUTDOWN else sb
    let sb2 : homeblks_sb_t := { sb1 with boot_cnt := (sb1.boot_cnt + 1) % 2 ^ 64 }
    some (sb2, sb2.svc_id)
  else
    none

/-! ## Shutdown watchdog (`no_outstanding_vols` / `can_shutdown` /
`do_shutdown`) and Reaper (`vol_gc`) -/

/-- Runtime view of a registered volume as consulted by the watchdog and
the Reaper: `is_destroying()`, `num_outstanding_reqs()` and the reference
count consulted by `can_remove()`. -/
structure VolRT where
  destroying : Bool
  outstanding : Nat
  refcnt : Nat
deriving Repr, DecidableEq

/-- `HomeBlocksImpl::no_outstanding_vols`: for each volume in the map, a
destroying volume fails the check unless crash simulation is enabled (in
which case it is skipped entirely); otherwise the volume fails the check
when it has outstanding requests. -/
def no_outstanding_vols (crash_simulated : Bool) (vols : List VolRT) : Bool :=
  vols.all fun vol =>
    if vol.destroying = true then crash_simulated else decide (vol.outstanding = 0)

/-- `HomeBlocksImpl::can_shutdown`: shutdown has started, no outstanding
volumes, and the service-wide outstanding-request counter is zero. -/
def can_shutdown (shutdown_started crash_simulated : Bool) (vols : List VolRT)
    (svc_outstanding : Nat) : Bool :=
  shutdown_started && no_outstanding_vols crash_simulated vols &&
    decide (svc_outstanding = 0)

/-- `HomeBlocksImpl::do_shutdown` (one watchdog tick): the shutdown
promise is completed exactly when `can_shutdown` holds. -/
def do_shutdown_completes (shutdown_started crash_simulated : Bool) (vols : List VolRT)
    (svc_outstanding : Nat) : Bool :=
  can_shutdown shutdown_started crash_simulated vols svc_outstanding

/-- Modelled from the spec: `Volume::can_remove` (body not under `src/`)
holds when the volume is no longer in use — zero outstanding requests and
zero references. -/
def can_remove (vol : VolRT) : Bool :=
  decide (vol.outstanding = 0) && decide (vol.refcnt = 0)

/-- The candidate-collection phase of `HomeBlocksImpl::vol_gc`: under the
shared lock, collect every registered volume with `is_destroying() &&
can_remove()`; these are then finalized outside the lock. -/
def vol_gc_candidates (vols : List VolRT) : List VolRT :=
  vols.filter fun vol => vol.destroying && can_remove vol

/-! ## Concrete sample inputs shared by witnesses and counterexamples -/

def env_fail : ReplEnv := ⟨false, false⟩

def env_ok : ReplEnv := ⟨true, true⟩

def w_empty : World := ⟨false, false, none, VolState.INIT⟩

def info_sample : VolumeInfo := ⟨1, 4096, 512, [65]⟩

def sb_sample : vol_sb_t := vol_sb_t.init 512 4096 1 [65]

def info_c2 : VolumeInfo := ⟨7, 1024, 512, [65]⟩

def sb_c2 : vol_sb_t := vol_sb_t.init 512 1024 7 [66]

def vol_sample : Volume := Volume.ctor_from_buf 0 sb_sample

def hb_sb_sample : homeblks_sb_t := ⟨HB_SB_MAGIC, HB_SB_VER, 3, 7, 42⟩

def bad_hb_sb : homeblks_sb_t := ⟨0, 0, 0, 0, 0⟩

def bad_vol_sb : vol_sb_t :=
  { magic := 0, version := 0, num_streams := 0, page_size := 4096, size := 1024,
    id := 5, name := List.replicate 100 0 }

def destroying_idle_vol : VolRT := ⟨true, 0, 0⟩

/-! ## Helper lemmas on the byte-string codec -/

lemma cstrncpy_of_le (s : List Nat) (n : Nat) (h0 : ∀ b ∈ s, b ≠ 0)
    (h : s.length ≤ n) : cstrncpy s n = s ++ List.replicate (n - s.length) 0 := by
  induction s generalizing n with
  | nil =>
    cases n with
    | zero => rfl
    | succ m => simp [cstrncpy]
  | cons b rest ih =>
    cases n with
    | zero => simp at h
    | succ m =>
      have hb : b ≠ 0 := h0 b (List.mem_cons_self b rest)
      have hr : ∀ x ∈ rest, x ≠ 0 := fun x hx => h0 x (List.mem_cons_of_mem b hx)
      have hl : rest.length ≤ m := by simpa using h
      simp [cstrncpy, hb, ih m hr hl]

lemma cstrncpy_of_ge (s : List Nat) (n : Nat) (h0 : ∀ b ∈ s, b ≠ 0)
    (h : n ≤ s.length) : cstrncpy s n = s.take n := by
  induction s generalizing n with
  | nil =>
    cases n with
    | zero => rfl
    | succ m => simp at h
  | cons b rest ih =>
    cases n with
    | zero => rfl
    | succ m =>
      have hb : b ≠ 0 := h0 b (List.mem_cons_self b rest)
      have hr : ∀ x ∈ rest, x ≠ 0 := fun x hx => h0 x (List.mem_cons_of_mem b hx)
      have hl : m ≤ rest.length := by simpa using h
      simp [cstrncpy, hb, ih m hr hl]

lemma cstring_append_zero (s t : List Nat) (h0 : ∀ b ∈ s, b ≠ 0) :
    cstring (s ++ 0 :: t) = s := by
  induction s with
  | nil => simp [cstring]
  | cons b rest ih =>
    have hb : b ≠ 0 := h0 b (List.mem_cons_self b rest)
    have hr : ∀ x ∈ rest, x ≠ 0 := fun x hx => h0 x (List.mem_cons_of_mem b hx)
    simp [cstring, hb, ih hr]

lemma replicate_zero_append (m : Nat) :
    List.replicate m 0 ++ [0] = 0 :: List.replicate m (0 : Nat) := by
  induction m with
  | zero => rfl
  | succ k ih => simp [List.replicate_succ, ih]

/-! ## C9: volume superblock encode/decode round trip -/

/-- C9: for a `VolumeInfo` whose (NUL-free) name is at most 99 bytes,
encoding a volume superblock and decoding it back yields identical id,
size and page size and the identical name; for a longer name the stored
name field is the 99-byte name truncation followed by a NUL, and decoding
yields that truncation. -/
theorem vol_sb_roundtrip (junk : Nat) (info : VolumeInfo)
    (h0 : ∀ b ∈ info.name, b ≠ 0) :
    ((Volume.ctor_from_buf junk
        (vol_sb_t.init info.page_size info.size_bytes info.id info.name)).vol_info.id
          = info.id ∧
      (Volume.ctor_from_buf junk
        (vol_sb_t.init info.page_size info.size_bytes info.id info.name)).vol_info.size_bytes
          = info.size_bytes ∧
      (Volume.ctor_from_buf junk
        (vol_sb_t.init info.page_size info.size_bytes info.id info.name)).vol_info.page_size
          = info.page_size) ∧
    (info.name.length ≤ 99 →
      (Volume.ctor_from_buf junk
        (vol_sb_t.init info.page_size info.size_bytes info.id info.name)).vol_info.name
          = info.name) ∧
    (99 < info.name.length →
      (vol_sb_t.init info.page_size info.size_bytes info.id info.name).name
          = info.name.take 99 ++ [0] ∧
      (Volume.ctor_from_buf junk
        (vol_sb_t.init info.page_size info.size_bytes info.id info.name)).vol_info.name
          = info.name.take 99) := by
  have h99 : VOL_NAME_SIZE - 1 = 99 := rfl
  refine ⟨⟨rfl, rfl, rfl⟩, ?_, ?_⟩
  · intro hle
    show cstring ((vol_sb_t.init info.page_size info.size_bytes info.id info.name).name)
        = info.name
    have hn : (vol_sb_t.init info.page_size info.size_bytes info.id info.name).name
        = info.name ++ 0 :: List.replicate (99 - info.name.length) 0 := by
      show cstrncpy info.name (VOL_NAME_SIZE - 1) ++ [0] = _
      rw [h99, cstrncpy_of_le info.name 99 h0 hle, List.append_assoc,
        replicate_zero_append]
    rw [hn, cstring_append_zero _ _ h0]
  · intro hgt
    have htake : ∀ b ∈ info.name.take 99, b ≠ 0 := fun b hb =>
      h0 b (List.mem_of_mem_take hb)
    have hn : (vol_sb_t.init info.page_size info.size_bytes info.id info.name).name
        = info.name.take 99 ++ [0] := by
      show cstrncpy info.name (VOL_NAME_SIZE - 1) ++ [0] = _
      rw [h99, cstrncpy_of_ge info.name 99 h0 (le_of_lt hgt)]
    refine ⟨hn, ?_⟩
    show cstring ((vol_sb_t.init info.page_size info.size_bytes info.id info.name).name)
        = info.name.take 99
    rw [hn]
    exact cstring_append_zero _ _ htake

/-- C9 witness: a concrete short-name round trip, via `vol_sb_roundtrip`. -/
theorem vol_sb_roundtrip_witness :
    (Volume.ctor_from_buf 3
      (vol_sb_t.init info_sample.page_size info_sample.size_bytes info_sample.id
        info_sample.name)).vol_info.name = info_sample.name :=
  (vol_sb_roundtrip 3 info_sample (by decide)).2.1 (by decide)

/-! ## C10: service superblock recovery handler -/

/-- C10: with matching magic and version, `on_hb_meta_blk_found`
increments `boot_cnt` by one (as a `uint64_t`), copies the persisted
service identity into the controller, leaves the graceful-shutdown bit
clear afterwards, and modifies nothing else (magic, version, svc_id and
the restricted bit are preserved). -/
theorem on_hb_meta_blk_found_spec (sb : homeblks_sb_t)
    (hm : sb.magic = HB_SB_MAGIC) (hv : sb.version = HB_SB_VER) :
    ∃ sb2 uid, on_hb_meta_blk_found sb = some (sb2, uid) ∧
      sb2.boot_cnt = (sb.boot_cnt + 1) % 2 ^ 64 ∧
      uid = sb.svc_id ∧
      sb2.svc_id = sb.svc_id ∧
      sb2.magic = sb.magic ∧
      sb2.version = sb.version ∧
      sb2.test_flag SB_FLAGS_GRACEFUL_SHUTDOWN = false ∧
      sb2.test_flag SB_FLAGS_RESTRICTED = sb.test_flag SB_FLAGS_RESTRICTED := by
  have hmask1 : (U32_MASK ^^^ SB_FLAGS_GRACEFUL_SHUTDOWN) &&& SB_FLAGS_GRACEFUL_SHUTDOWN
      = 0 := by decide
  have hmask2 : (U32_MASK ^^^ SB_FLAGS_GRACEFUL_SHUTDOWN) &&& SB_FLAGS_RESTRICTED
      = SB_FLAGS_RESTRICTED := by decide
  cases hgf : sb.test_flag SB_FLAGS_GRACEFUL_SHUTDOWN with
  | false =>
    refine ⟨{ sb with boot_cnt := (sb.boot_cnt + 1) % 2 ^ 64 }, sb.svc_id,
      ?_, rfl, rfl, rfl, rfl, rfl, ?_, rfl⟩
    · simp [on_hb_meta_blk_found, hm, hv, hgf]
    · exact hgf
  | true =>
    refine ⟨{ sb.clear_flag SB_FLAGS_GRACEFUL_SHUTDOWN with
        boot_cnt := (sb.boot_cnt + 1) % 2 ^ 64 }, sb.svc_id,
      ?_, rfl, rfl, rfl, rfl, rfl, ?_, ?_⟩
    · simp [on_hb_meta_blk_found, hm, hv, hgf]
      exact ⟨rfl, rfl⟩
    · show decide ((sb.clear_flag SB_FLAGS_GRACEFUL_SHUTDOWN).flag &&&
          SB_FLAGS_GRACEFUL_SHUTDOWN ≠ 0) = false
      simp [homeblks_sb_t.clear_flag, Nat.land_assoc, hmask1]
    · show decide ((sb.clear_flag SB_FLAGS_GRACEFUL_SHUTDOWN).flag &&&
          SB_FLAGS_RESTRICTED ≠ 0) = decide (sb.flag &&& SB_FLAGS_RESTRICTED ≠ 0)
      simp [homeblks_sb_t.clear_flag, Nat.land_assoc, hmask2]

/-- C10 witness: the handler applied to a concrete persisted record with
both flag bits set, via `on_hb_meta_blk_found_spec`. -/
theorem on_hb_meta_blk_found_spec_witness :
    ∃ sb2 uid, on_hb_meta_blk_found hb_sb_sample = some (sb2, uid) ∧
      sb2.boot_cnt = (hb_sb_sample.boot_cnt + 1) % 2 ^ 64 ∧
      uid = hb_sb_sample.svc_id ∧
      sb2.svc_id = hb_sb_sample.svc_id ∧
      sb2.magic = hb_sb_sample.magic ∧
      sb2.version = hb_sb_sample.version ∧
      sb2.test_flag SB_FLAGS_GRACEFUL_SHUTDOWN = false ∧
      sb2.test_flag SB_FLAGS_RESTRICTED = hb_sb_sample.test_flag SB_FLAGS_RESTRICTED :=
  on_hb_meta_blk_found_spec hb_sb_sample rfl rfl

/-! ## C4: magic/version verification on load -/

/-- C4 counterexample: a per-volume superblock buffer whose magic and
version match nothing is still loaded and used — the `Volume`
byte-buffer constructor performs no magic/version check, so a mismatched
volume record does not fail the load as the claim states. -/
theorem vol_sb_load_unchecked :
    bad_vol_sb.magic ≠ VOL_SB_MAGIC ∧ bad_vol_sb.version ≠ VOL_SB_VER ∧
    (Volume.ctor_from_buf 0 bad_vol_sb).sb = some bad_vol_sb ∧
    (Volume.ctor_from_buf 0 bad_vol_sb).vol_info.id = bad_vol_sb.id := by
  decide

/-- C4 amended: only the service-level superblock load verifies magic and
version (a mismatch is a fatal abort); the per-volume superblock load
performs no such check and proceeds with the buffer unconditionally. -/
theorem sb_magic_check_amended :
    (∀ sb : homeblks_sb_t, sb.magic ≠ HB_SB_MAGIC ∨ sb.version ≠ HB_SB_VER →
      on_hb_meta_blk_found sb = none) ∧
    (∀ junk : Nat, ∀ buf : vol_sb_t,
      (Volume.ctor_from_buf junk buf).sb = some buf ∧
      (Volume.ctor_from_buf junk buf).vol_info.id = buf.id) := by
  constructor
  · intro sb h
    have hne : ¬(sb.version = HB_SB_VER ∧ sb.magic = HB_SB_MAGIC) := by tauto
    simp [on_hb_meta_blk_found, hne]
  · exact fun junk buf => ⟨rfl, rfl⟩

/-- C4 amended witness: the service-level load rejects a concrete
mismatched record while the volume-level load accepts one, via
`sb_magic_check_amended`. -/
theorem sb_magic_check_amended_witness :
    on_hb_meta_blk_found bad_hb_sb = none ∧
    (Volume.ctor_from_buf 0 bad_vol_sb).sb = some bad_vol_sb :=
  ⟨sb_magic_check_amended.1 bad_hb_sb (Or.inl (by decide)),
    (sb_magic_check_amended.2 0 bad_vol_sb).1⟩

/-! ## C5: shutdown watchdog -/

/-- C5 counterexample: with crash simulation enabled, a volume that is
mid-destruction is skipped entirely, so the watchdog lets shutdown
complete even though that volume has outstanding requests — refuting the
claim that shutdown never completes while any volume has
`outstanding_reqs > 0`. -/
theorem shutdown_skips_destroying_reqs :
    (VolRT.mk true 5 0).outstanding > 0 ∧
    do_shutdown_completes true true [VolRT.mk true 5 0] 0 = true := by
  decide

/-- C5 amended: on a watchdog tick, shutdown is permitted iff the
shutdown flag is set, every mid-destruction volume is crash-skippable,
every volume that is not mid-destruction has zero outstanding requests
(the outstanding count of a crash-skipped destroying volume is not
examined), and the service-wide outstanding-request counter is zero. -/
theorem can_shutdown_iff (ss cs : Bool) (vols : List VolRT) (svc : Nat) :
    can_shutdown ss cs vols svc = true ↔
      (ss = true ∧
        (∀ vol ∈ vols, vol.destroying = true → cs = true) ∧
        (∀ vol ∈ vols, vol.destroying = false → vol.outstanding = 0) ∧
        svc = 0) := by
  have hvol : ∀ vol : VolRT,
      ((if vol.destroying = true then cs else decide (vol.outstanding = 0)) = true) ↔
        ((vol.destroying = true → cs = true) ∧
          (vol.destroying = false → vol.outstanding = 0)) := by
    intro vol
    cases hdd : vol.destroying <;> simp [hdd]
  constructor
  · intro h
    have h1 := h
    simp only [can_shutdown, no_outstanding_vols, Bool.and_eq_true,
      List.all_eq_true, decide_eq_true_eq] at h1
    refine ⟨h1.1.1, ?_, ?_, h1.2⟩
    · exact fun vol hv hd => ((hvol vol).mp (h1.1.2 vol hv)).1 hd
    · exact fun vol hv hd => ((hvol vol).mp (h1.1.2 vol hv)).2 hd
  · rintro ⟨h1, h2, h3, h4⟩
    simp only [can_shutdown, no_outstanding_vols, Bool.and_eq_true,
      List.all_eq_true, decide_eq_true_eq]
    exact ⟨⟨h1, fun vol hv => (hvol vol).mpr ⟨h2 vol hv, h3 vol hv⟩⟩, h4⟩

/-- C5 amended witness: a concrete permitted tick, via `can_shutdown_iff`. -/
theorem can_shutdown_iff_witness : can_shutdown true false [] 0 = true :=
  (can_shutdown_iff true false [] 0).mpr ⟨rfl, by simp, by simp, rfl⟩

/-! ## C6: Reaper candidate selection -/

/-- C6: a volume is selected by the Reaper scan iff it is registered,
mid-destruction, has zero outstanding requests and zero references
(`can_remove` modelled from the spec). -/
theorem vol_gc_candidate_iff (vols : List VolRT) (vol : VolRT) :
    vol ∈ vol_gc_candidates vols ↔
      (vol ∈ vols ∧ vol.destroying = true ∧ vol.outstanding = 0 ∧ vol.refcnt = 0) := by
  simp [vol_gc_candidates, can_remove, List.mem_filter, Bool.and_eq_true,
    decide_eq_true_eq, and_assoc]

/-- C6 witness: a concrete destroying, idle, unreferenced volume is
selected, via `vol_gc_candidate_iff`. -/
theorem vol_gc_candidate_iff_witness :
    destroying_idle_vol ∈ vol_gc_candidates [destroying_idle_vol] :=
  (vol_gc_candidate_iff [destroying_idle_vol] destroying_idle_vol).mpr
    ⟨by simp, rfl, rfl, rfl⟩

/-! ## C1: creation/recovery dispatch in `make_volume` -/

/-- C1: evaluating the two `make_volume` overloads at concrete inputs
shows the dispatch is inverted with respect to the claim: the overload
taking a fresh `VolumeInfo` calls `init(true)`, so it runs the recovery
branch (it performs a `get_repl_dev` lookup, tolerates its failure and
returns a volume), while the overload taking a persisted superblock
buffer calls `init()` (default `false`), so it runs the creation branch
(it populates a fresh superblock, calls `create_repl_dev`, and aborts on
its failure). -/
theorem make_volume_paths_swapped :
    (make_volume_from_info env_fail w_empty 0 info_sample).1.isSome = true ∧
    (make_volume_from_info env_fail w_empty 0 info_sample).2.2 = [Ev.getReplDev 0] ∧
    (make_volume_from_buf env_fail w_empty 0 sb_sample).1 = none ∧
    (make_volume_from_buf env_fail w_empty 0 sb_sample).2.2
      = [Ev.sbCreate, Ev.createReplDev 0] := by
  decide

/-! ## C2: the identity returned by `id()` -/

/-- C2: `Volume::id()` returns the `uuid_` member, which no constructor
or method ever assigns; at a concrete creation (and a concrete recovery
load) the returned identity differs from the UUID carried in the
`VolumeInfo` / superblock, refuting the claim on the code as written. -/
theorem id_not_creation_uuid :
    Volume.id (Volume.ctor_from_info 0 info_c2) ≠ info_c2.id ∧
    Volume.id (Volume.ctor_from_buf 0 sb_c2) ≠ sb_c2.id := by
  decide

/-! ## C3: failed creation leaves no trace -/

/-- C3: when `create_repl_dev` fails during the creation branch of
`Volume::init`, the failure is returned synchronously, the external world
is untouched (no committed superblock record, no replicated device, no
index table) and the Registry is not updated; and on the successful
creation path, the superblock-persisting step is the last external call. -/
theorem create_failure_atomic (env : ReplEnv) (w : World) (reg : List Nat)
    (junk : Nat) (info : VolumeInfo) (hc : env.create_ok = false) :
    create_volume_model env w reg junk info = (false, w, reg) ∧
    (∀ env2 : ReplEnv, env2.create_ok = true →
      ((Volume.init env2 w (Volume.ctor_from_info junk info) false).2.2.2).getLast?
        = some (Ev.persistState VolState.ONLINE)) := by
  constructor
  · simp [create_volume_model, Volume.init, hc]
  · intro env2 h2
    simp [Volume.init, h2]

/-- C3 witness: a concrete failed creation leaves world and Registry
untouched, and a concrete successful creation commits the superblock
last, via `create_failure_atomic`. -/
theorem create_failure_atomic_witness :
    create_volume_model env_fail w_empty [] 0 info_sample = (false, w_empty, []) ∧
    ((Volume.init env_ok w_empty (Volume.ctor_from_info 0 info_sample) false).2.2.2).getLast?
      = some (Ev.persistState VolState.ONLINE) :=
  ⟨(create_failure_atomic env_fail w_empty [] 0 info_sample rfl).1,
    (create_failure_atomic env_fail w_empty [] 0 info_sample rfl).2 env_ok rfl⟩

/-! ## C7: ordering of the destruction sequence -/

/-- C7: in every execution of `Volume::destroy`, the persisted transition
to DESTROYING is the first external action, the superblock erasure is the
last, and every device-removal or index-teardown action lies strictly
between them. -/
theorem destroy_order (w : World) (v : Volume) :
    ∃ mid, (Volume.destroy w v).2.2
        = Ev.persistState VolState.DESTROYING :: (mid ++ [Ev.sbErase]) ∧
      ∀ e ∈ mid, e = Ev.removeReplDev (Volume.id v) ∨ e = Ev.removeIndexTable := by
  cases hrd : v.rd with
  | none =>
    cases hit : v.indx_tbl with
    | none =>
      exact ⟨[], by simp [Volume.destroy, state_change, hrd, hit], by simp⟩
    | some u =>
      exact ⟨[Ev.removeIndexTable],
        by simp [Volume.destroy, state_change, hrd, hit], by simp⟩
  | some u =>
    cases hit : v.indx_tbl with
    | none =>
      exact ⟨[Ev.removeReplDev v.uuid],
        by simp [Volume.destroy, state_change, hrd, hit], by simp [Volume.id]⟩
    | some u2 =>
      exact ⟨[Ev.removeReplDev v.uuid, Ev.removeIndexTable],
        by simp [Volume.destroy, state_change, hrd, hit], by simp [Volume.id]⟩

/-- C7 witness: the ordering at a concrete volume, via `destroy_order`. -/
theorem destroy_order_witness :
    ∃ mid, (Volume.destroy w_empty vol_sample).2.2
        = Ev.persistState VolState.DESTROYING :: (mid ++ [Ev.sbErase]) ∧
      ∀ e ∈ mid, e = Ev.removeReplDev (Volume.id vol_sample) ∨ e = Ev.removeIndexTable :=
  destroy_order w_empty vol_sample

/-! ## C8: destruction re-run after a crash, on the frozen code -/

/-- A live volume with a replicated device and an index table, about to
be destroyed. -/
def vol_live : Volume :=
  { vol_info := info_sample
    uuid := 0
    rd := some ()
    indx_tbl := some ()
    sb := some sb_sample
    state := VolState.ONLINE }

/-- The external world matching `vol_live`: device, index table and
committed superblock record all present. -/
def w_live : World := ⟨true, true, some sb_sample, VolState.ONLINE⟩

/-- The persisted world at the in-code crash point of `Volume::destroy`
(the `vol_destroy_crash_simulation` flip): DESTROYING persisted and the
repl dev removed, index table and superblock record still present. -/
def w_mid_destroy : World := ⟨false, true, some sb_sample, VolState.DESTROYING⟩

/-- A volume as a crash restart in DESTROYING state would leave it with
no handles: `rd_` null (the device is gone) and `indx_tbl_` null (the
in-src index recovery callback returns `nullptr`). -/
def vol_recovered_no_handles : Volume :=
  { vol_info := info_sample
    uuid := 0
    rd := none
    indx_tbl := none
    sb := some sb_sample
    state := VolState.DESTROYING }

/-- C8: the frozen code violates the idempotent-destruction claim.
Crash `vol_live` after the first two destroy steps — exactly the
`vol_destroy_crash_simulation` flip point, strictly between the
persisted DESTROYING transition and the superblock erasure — leaving the
superblock record and the index table persisted and the device gone.
On reboot, the only in-src path from the persisted buffer is
`make_volume(buf, cookie)`, which calls `init()` — the creation branch
(the inverted dispatch also established for C1): with the replication
service available it issues `create_repl_dev` and creates a fresh index
table instead of skipping the already-completed steps, and re-persists
the superblock with state ONLINE — so the re-run does re-create the
replicated device and the index table rather than resuming removal.
Moreover a volume recovered in DESTROYING state carries no index handle
(the in-src `HBIndexSvcCB::on_index_table_found` returns `nullptr`), so
re-running `destroy` on it skips the index teardown and the persisted
index table survives instead of converging to full removal. -/
theorem destroy_rerun_not_idempotent :
    (run_steps (w_live, vol_live) ((destroy_step_list vol_live).take 2)).1
      = w_mid_destroy ∧
    (recover_from_meta env_ok w_mid_destroy 0).1.isSome = true ∧
    Ev.createReplDev 0 ∈ (recover_from_meta env_ok w_mid_destroy 0).2.2 ∧
    Ev.createIndexTable ∈ (recover_from_meta env_ok w_mid_destroy 0).2.2 ∧
    (recover_from_meta env_ok w_mid_destroy 0).2.1.dev_exists = true ∧
    (recover_from_meta env_ok w_mid_destroy 0).2.1.sb_state = VolState.ONLINE ∧
    (Volume.destroy w_mid_destroy vol_recovered_no_handles).1.index_exists = true := by
  decide

end Homeblocks
